import Mathlib

/-!
Shallow embedding of the `UnsafeCommandBufferBuilder` append operations of
vulkano's `command_buffer/sys` module (`copy.rs`, `clear.rs`, `mod.rs`):
`copy_buffer_untyped`, `fill_buffer_untyped` and `update_buffer_untyped`.

Machine integers (`usize` / `vk::DeviceSize`, both 64-bit here) are modelled
as `Nat` with explicit reduction modulo `2 ^ 64` at every addition that the
source performs with unchecked `+` (Rust release builds wrap on overflow; a
debug build would abort, and in neither build is an error value returned for
an overflowing sum).

An operation's result is an `Outcome`: `panicked` for an `assert_eq!` or
`Option::unwrap` failure, `error e b` for `return Err(e)` reached while the
builder state is still `b`, and `ok b` for `Ok(builder)`.  The Rust methods
take `mut self`; carrying the builder state in the `error` constructor is the
state-passing translation of those methods, and records the state the builder
had at the moment of the early `return Err`.
-/

namespace Vulkano

/-- Wrap-around bound of the 64-bit unsigned machine integers used by the
source (`usize` and `vk::DeviceSize`). -/
def USIZE : Nat := 2 ^ 64

/-- Addition of two 64-bit machine integers with wrap-around, the semantics
of the unchecked `+` in the source. -/
def wrapAdd (a b : Nat) : Nat := (a + b) % USIZE

/-- Stand-in for `command_buffer::DynamicState`.  Its fields are defined
outside the embedded module and no embedded operation reads or writes it, so
it is modelled opaquely by an identity. -/
structure DynamicState where
  snapshot : Nat
  deriving DecidableEq, Repr

/-- Capability flags of the queue family a command pool belongs to. -/
structure QueueFamily where
  supports_graphics : Bool
  supports_compute : Bool
  deriving DecidableEq, Repr

/-- The command pool a builder was created from: its device identity
(`pool.device().internal_object()`) and its queue family. -/
structure CommandBufferPool where
  device_internal : Nat
  queue_family : QueueFamily
  deriving DecidableEq, Repr

/-- The part of a buffer reachable through `inner_buffer()`: the owning
device's identity, the underlying `vk::Buffer` object identity
(`internal_object()`), and the two usage flags the embedded operations
consult. -/
structure BufferInner where
  device_internal : Nat
  internal_object : Nat
  usage_transfer_src : Bool
  usage_transfer_dest : Bool
  deriving DecidableEq, Repr

/-- A buffer as the embedded operations see it: `inner_buffer()` plus
`size()`. -/
structure Buffer where
  inner_buffer : BufferInner
  size : Nat
  deriving DecidableEq, Repr

/-- A `BufferSlice`: an underlying buffer plus a byte offset and size. -/
structure BufferSlice where
  buffer : Buffer
  offset : Nat
  size : Nat
  deriving DecidableEq, Repr

/-- `BufferCopyRegion` from `copy.rs`: source offset, destination offset and
size, all byte counts in `usize`. -/
structure BufferCopyRegion where
  source_offset : Nat
  destination_offset : Nat
  size : Nat
  deriving DecidableEq, Repr

/-- `vk::BufferCopy`, the device-ready region descriptor built from a
`BufferCopyRegion`. -/
structure VkBufferCopy where
  srcOffset : Nat
  dstOffset : Nat
  size : Nat
  deriving DecidableEq, Repr

/-- A native command appended to the command buffer through the `vk.Cmd*`
entry points, recorded with the arguments the source passes. -/
inductive NativeCommand where
  | copyBuffer (cmd : Nat) (src dest : Nat) (regions : List VkBufferCopy)
  | fillBuffer (cmd : Nat) (buffer : Nat) (offset size data : Nat)
  | updateBuffer (cmd : Nat) (buffer : Nat) (offset sizeDiv4 : Nat)
  deriving DecidableEq, Repr

/-- The builder state from `sys/mod.rs`.  The keep-alive list holds the
resources pushed by the embedded operations (only buffers, for these three
operations), and `commands` is the native command sequence the `vk.Cmd*`
calls append to. -/
structure UnsafeCommandBufferBuilder where
  cmd : Option Nat
  device : Nat
  pool : CommandBufferPool
  keep_alive : List Buffer
  current_graphics_pipeline : Option Nat
  current_compute_pipeline : Option Nat
  current_dynamic_state : DynamicState
  secondary_cb : Bool
  within_render_pass : Bool
  commands : List NativeCommand
  deriving DecidableEq, Repr

/-- `BufferCopyError` from `copy.rs`. -/
inductive BufferCopyError where
  | ForbiddenWithinRenderPass
  | OutOfRange
  | WrongUsageFlag
  | OverlappingRegions
  deriving DecidableEq, Repr

/-- `BufferFillError` from `clear.rs`. -/
inductive BufferFillError where
  | ForbiddenWithinRenderPass
  | NotSupportedByQueueFamily
  | WrongUsageFlag
  | WrongAlignment
  deriving DecidableEq, Repr

/-- `BufferUpdateError` from `clear.rs`. -/
inductive BufferUpdateError where
  | ForbiddenWithinRenderPass
  | WrongUsageFlag
  | WrongAlignment
  | RegionTooLarge
  | DataTooSmall
  deriving DecidableEq, Repr

/-- Result of an append operation: a panic (failed `assert_eq!` or
`unwrap`), an error returned with the builder in state `builder`, or success
with the updated builder. -/
inductive Outcome (ε : Type) where
  | panicked
  | error (e : ε) (builder : UnsafeCommandBufferBuilder)
  | ok (builder : UnsafeCommandBufferBuilder)
  deriving DecidableEq, Repr

/-- Translation of a `BufferCopyRegion` into the `vk::BufferCopy` pushed by
the region-building loop (the `as vk::DeviceSize` casts are identities on a
64-bit platform). -/
def toVkRegion (r : BufferCopyRegion) : VkBufferCopy :=
  { srcOffset := r.source_offset, dstOffset := r.destination_offset, size := r.size }

/-- The region-building loop of `copy_buffer_untyped` (`copy.rs` lines
100-118): per region, bounds-check the wrapped sums against the buffer
sizes, drop zero-size regions, and translate the survivors in order. -/
def buildRegions (src dest : Buffer) : List BufferCopyRegion → Except BufferCopyError (List VkBufferCopy)
  | [] => Except.ok []
  | region :: rest =>
    if src.size < wrapAdd region.source_offset region.size then
      Except.error BufferCopyError.OutOfRange
    else if dest.size < wrapAdd region.destination_offset region.size then
      Except.error BufferCopyError.OutOfRange
    else if region.size = 0 then
      buildRegions src dest rest
    else
      match buildRegions src dest rest with
      | Except.error e => Except.error e
      | Except.ok tail => Except.ok (toVkRegion region :: tail)

/-- One iteration of the overlap-checking double loop (`copy.rs` lines
129-151): true exactly when one of the six `return Err(OverlappingRegions)`
conditions fires for the ordered pair `(r1, r2)`. -/
def overlapHit (sameObject : Bool) (r1 r2 : VkBufferCopy) : Bool :=
  (decide (r1.srcOffset ≤ r2.srcOffset) && decide (r2.srcOffset ≤ wrapAdd r1.srcOffset r1.size)) ||
  (decide (r2.srcOffset ≤ r1.srcOffset) && decide (r1.srcOffset ≤ wrapAdd r2.srcOffset r2.size)) ||
  (decide (r1.dstOffset ≤ r2.dstOffset) && decide (r2.dstOffset ≤ wrapAdd r1.dstOffset r1.size)) ||
  (decide (r2.dstOffset ≤ r1.dstOffset) && decide (r1.dstOffset ≤ wrapAdd r2.dstOffset r2.size)) ||
  (sameObject &&
    ((decide (r1.srcOffset ≤ r2.dstOffset) && decide (r2.dstOffset ≤ wrapAdd r1.srcOffset r1.size)) ||
     (decide (r2.srcOffset ≤ r1.dstOffset) && decide (r1.dstOffset ≤ wrapAdd r2.srcOffset r2.size))))

/-- The overlap-checking double loop over all index pairs `r1 < r2`:
true exactly when some pair makes `overlapHit` fire. -/
def anyPairOverlap (sameObject : Bool) : List VkBufferCopy → Bool
  | [] => false
  | r1 :: rest => rest.any (overlapHit sameObject r1) || anyPairOverlap sameObject rest

/-- `UnsafeCommandBufferBuilder::copy_buffer_untyped` from `copy.rs`. -/
def copy_buffer_untyped (b : UnsafeCommandBufferBuilder) (src dest : Buffer)
    (regions : List BufferCopyRegion) : Outcome BufferCopyError :=
  if b.within_render_pass then
    Outcome.error BufferCopyError.ForbiddenWithinRenderPass b
  else if src.inner_buffer.device_internal ≠ b.pool.device_internal then
    Outcome.panicked
  else if dest.inner_buffer.device_internal ≠ b.pool.device_internal then
    Outcome.panicked
  else if !src.inner_buffer.usage_transfer_src || !dest.inner_buffer.usage_transfer_dest then
    Outcome.error BufferCopyError.WrongUsageFlag b
  else
    match buildRegions src dest regions with
    | Except.error e => Outcome.error e b
    | Except.ok vkRegions =>
      if vkRegions.isEmpty then
        Outcome.ok b
      else if anyPairOverlap (src.inner_buffer.internal_object == dest.inner_buffer.internal_object) vkRegions then
        Outcome.error BufferCopyError.OverlappingRegions b
      else
        match b.cmd with
        | none => Outcome.panicked
        | some c =>
          Outcome.ok { b with
            keep_alive := b.keep_alive ++ [src, dest],
            commands := b.commands ++
              [NativeCommand.copyBuffer c src.inner_buffer.internal_object
                dest.inner_buffer.internal_object vkRegions] }

/-- `UnsafeCommandBufferBuilder::fill_buffer_untyped` from `clear.rs`. -/
def fill_buffer_untyped (b : UnsafeCommandBufferBuilder) (buffer : BufferSlice)
    (data : Nat) : Outcome BufferFillError :=
  if b.within_render_pass then
    Outcome.error BufferFillError.ForbiddenWithinRenderPass b
  else if buffer.buffer.inner_buffer.device_internal ≠ b.pool.device_internal then
    Outcome.panicked
  else if !buffer.buffer.inner_buffer.usage_transfer_src then
    Outcome.error BufferFillError.WrongUsageFlag b
  else if buffer.offset % 4 ≠ 0 ∨ buffer.size % 4 ≠ 0 then
    Outcome.error BufferFillError.WrongAlignment b
  else if buffer.size = 0 then
    Outcome.ok b
  else if !b.pool.queue_family.supports_graphics && !b.pool.queue_family.supports_compute then
    Outcome.error BufferFillError.NotSupportedByQueueFamily b
  else
    match b.cmd with
    | none => Outcome.panicked
    | some c =>
      Outcome.ok { b with
        keep_alive := b.keep_alive ++ [buffer.buffer],
        commands := b.commands ++
          [NativeCommand.fillBuffer c buffer.buffer.inner_buffer.internal_object
            buffer.offset buffer.size data] }

/-- `UnsafeCommandBufferBuilder::update_buffer_untyped` from `clear.rs`.
The `data: &D` argument enters the checks only through
`mem::size_of_val(data)`, modelled as `dataSize`. -/
def update_buffer_untyped (b : UnsafeCommandBufferBuilder) (buffer : BufferSlice)
    (dataSize : Nat) : Outcome BufferUpdateError :=
  if b.within_render_pass then
    Outcome.error BufferUpdateError.ForbiddenWithinRenderPass b
  else if buffer.buffer.inner_buffer.device_internal ≠ b.pool.device_internal then
    Outcome.panicked
  else if !buffer.buffer.inner_buffer.usage_transfer_src then
    Outcome.error BufferUpdateError.WrongUsageFlag b
  else if buffer.offset % 4 ≠ 0 ∨ buffer.size % 4 ≠ 0 then
    Outcome.error BufferUpdateError.WrongAlignment b
  else if buffer.size = 0 then
    Outcome.ok b
  else if 0x10000 ≤ buffer.size then
    Outcome.error BufferUpdateError.RegionTooLarge b
  else if dataSize < buffer.size then
    Outcome.error BufferUpdateError.DataTooSmall b
  else
    match b.cmd with
    | none => Outcome.panicked
    | some c =>
      Outcome.ok { b with
        keep_alive := b.keep_alive ++ [buffer.buffer],
        commands := b.commands ++
          [NativeCommand.updateBuffer c buffer.buffer.inner_buffer.internal_object
            buffer.offset (buffer.size / 4)] }

/-- Concrete device identity used by the concrete witnesses below. -/
def devId : Nat := 7

/-- Queue family supporting both graphics and compute. -/
def qfBoth : QueueFamily := { supports_graphics := true, supports_compute := true }

/-- Queue family supporting neither graphics nor compute (transfer-only). -/
def qfNone : QueueFamily := { supports_graphics := false, supports_compute := false }

/-- Pool on `devId` with a fully capable queue family. -/
def pool0 : CommandBufferPool := { device_internal := devId, queue_family := qfBoth }

/-- Pool on `devId` with a transfer-only queue family. -/
def poolNoQF : CommandBufferPool := { device_internal := devId, queue_family := qfNone }

/-- Buffer `A`: 200 bytes, both transfer usage flags set. -/
def bufA : Buffer :=
  { inner_buffer := { device_internal := devId, internal_object := 100,
                      usage_transfer_src := true, usage_transfer_dest := true },
    size := 200 }

/-- Buffer `B`: 200 bytes, both transfer usage flags set, distinct underlying
object from `bufA`. -/
def bufB : Buffer :=
  { inner_buffer := { device_internal := devId, internal_object := 101,
                      usage_transfer_src := true, usage_transfer_dest := true },
    size := 200 }

/-- Buffer lacking the transfer-source usage flag. -/
def bufNoSrc : Buffer :=
  { inner_buffer := { device_internal := devId, internal_object := 102,
                      usage_transfer_src := false, usage_transfer_dest := true },
    size := 200 }

/-- Buffer allocated on a different device than `pool0`. -/
def bufOtherDevice : Buffer :=
  { inner_buffer := { device_internal := 99, internal_object := 103,
                      usage_transfer_src := true, usage_transfer_dest := true },
    size := 200 }

/-- Fresh builder on `pool0`, outside a render pass, with an allocated
command buffer handle. -/
def builder0 : UnsafeCommandBufferBuilder :=
  { cmd := some 1, device := devId, pool := pool0, keep_alive := [],
    current_graphics_pipeline := none, current_compute_pipeline := none,
    current_dynamic_state := { snapshot := 0 }, secondary_cb := false,
    within_render_pass := false, commands := [] }

/-- Builder currently inside a render pass. -/
def builderRP : UnsafeCommandBufferBuilder := { builder0 with within_render_pass := true }

/-- Builder whose pool's queue family supports neither graphics nor
compute. -/
def builderNoQF : UnsafeCommandBufferBuilder := { builder0 with pool := poolNoQF }

/-- The list of regions that survive zero-size elision, in input order. -/
def surviving (regions : List BufferCopyRegion) : List BufferCopyRegion :=
  regions.filter (fun r => r.size != 0)

/-- Slice `s` with the transfer-destination usage flag of its buffer set to
`v` and every other field unchanged. -/
def setTransferDest (s : BufferSlice) (v : Bool) : BufferSlice :=
  { s with buffer := { s.buffer with
      inner_buffer := { s.buffer.inner_buffer with usage_transfer_dest := v } } }

/-- Classification of an outcome that forgets the builder states: `none` for
a panic, `some (some e)` for error `e`, `some none` for success. -/
def outcomeTag {ε : Type} : Outcome ε → Option (Option ε)
  | Outcome.panicked => none
  | Outcome.error e _ => some (some e)
  | Outcome.ok _ => some none

/-- Concrete slice of 65536 bytes at offset 0. -/
def slice64k : BufferSlice := { buffer := bufA, offset := 0, size := 65536 }

/-- Copy region whose source end offset overflows a 64-bit machine integer:
the mathematical sum `(2^64 - 1) + 2` wraps to 1. -/
def regionWrap : BufferCopyRegion :=
  { source_offset := USIZE - 1, destination_offset := 0, size := 2 }

/-- Builder state after `builder0` accepts `regionWrap` via wraparound. -/
def builderWrapResult : UnsafeCommandBufferBuilder :=
  { builder0 with
    keep_alive := [bufA, bufB],
    commands := [NativeCommand.copyBuffer 1 100 101
      [{ srcOffset := USIZE - 1, dstOffset := 0, size := 2 }]] }

/-- Concrete slice over the buffer lacking the transfer-source usage
flag. -/
def sliceNoSrc : BufferSlice := { buffer := bufNoSrc, offset := 0, size := 8 }

/-- First region of the C1 counterexample: source interval `[8, 12)`,
destination interval `[0, 4)`. -/
def cexRegion1 : BufferCopyRegion := { source_offset := 8, destination_offset := 0, size := 4 }

/-- Second region of the C1 counterexample: source interval `[100, 104)`,
destination interval `[5, 9)` — the destination starts below 8 and reaches
into `[8, 12)`. -/
def cexRegion2 : BufferCopyRegion := { source_offset := 100, destination_offset := 5, size := 4 }

/-- Builder state after `builder0` accepts the two C1 counterexample
regions on the single buffer `bufA`. -/
def builderCexC1 : UnsafeCommandBufferBuilder :=
  { builder0 with
    keep_alive := [bufA, bufA],
    commands := [NativeCommand.copyBuffer 1 100 100
      [{ srcOffset := 8, dstOffset := 0, size := 4 },
       { srcOffset := 100, dstOffset := 5, size := 4 }]] }

/-- Concrete copy region of scenario A: 16 bytes from offset 0 to offset
0. -/
def regA : BufferCopyRegion := { source_offset := 0, destination_offset := 0, size := 16 }

/-- Builder state after a successful scenario-A copy of `regA` from `bufA`
to `bufB` on `builder0`. -/
def scenarioA : UnsafeCommandBufferBuilder :=
  { builder0 with
    keep_alive := [bufA, bufB],
    commands := [NativeCommand.copyBuffer 1 100 101
      [{ srcOffset := 0, dstOffset := 0, size := 16 }]] }

/-- When every region's wrapped end offsets fit in the buffers, the
region-building loop succeeds and returns exactly the surviving regions,
translated in input order. -/
theorem buildRegions_eq_ok (src dest : Buffer) (regions : List BufferCopyRegion)
    (h : ∀ r ∈ regions, wrapAdd r.source_offset r.size ≤ src.size ∧
           wrapAdd r.destination_offset r.size ≤ dest.size) :
    buildRegions src dest regions = Except.ok ((surviving regions).map toVkRegion) := by
  induction regions with
  | nil => rfl
  | cons r rest ih =>
    have hr := h r (List.mem_cons_self r rest)
    have hrest : ∀ x ∈ rest, wrapAdd x.source_offset x.size ≤ src.size ∧
        wrapAdd x.destination_offset x.size ≤ dest.size :=
      fun x hx => h x (List.mem_cons_of_mem r hx)
    unfold buildRegions
    rw [if_neg (by omega), if_neg (by omega)]
    by_cases hz : r.size = 0
    · rw [if_pos hz, ih hrest]
      unfold surviving
      rw [List.filter_cons, if_neg (by simp [hz])]
    · rw [if_neg hz, ih hrest]
      unfold surviving
      rw [List.filter_cons, if_pos (by simp [hz])]
      rfl

/-- A region list whose entries all have size zero has no survivors. -/
theorem surviving_eq_nil (regions : List BufferCopyRegion)
    (hz : ∀ r ∈ regions, r.size = 0) : surviving regions = [] := by
  induction regions with
  | nil => rfl
  | cons r rest ih =>
    unfold surviving
    rw [List.filter_cons, if_neg (by simp [hz r (List.mem_cons_self r rest)])]
    exact ih (fun x hx => hz x (List.mem_cons_of_mem r hx))

/-- Every error return of `copy_buffer_untyped` carries the builder in its
pre-call state: all `return Err` statements precede the mutations. -/
theorem copy_error_state (b : UnsafeCommandBufferBuilder) (src dest : Buffer)
    (regions : List BufferCopyRegion) (e : BufferCopyError) (b' : UnsafeCommandBufferBuilder)
    (h : copy_buffer_untyped b src dest regions = Outcome.error e b') : b' = b := by
  unfold copy_buffer_untyped at h
  repeat' split at h
  all_goals first
    | (injection h with h1 h2; exact h2.symm)
    | exact Outcome.noConfusion h

/-- Every error return of `fill_buffer_untyped` carries the builder in its
pre-call state. -/
theorem fill_error_state (b : UnsafeCommandBufferBuilder) (s : BufferSlice) (d : Nat)
    (e : BufferFillError) (b' : UnsafeCommandBufferBuilder)
    (h : fill_buffer_untyped b s d = Outcome.error e b') : b' = b := by
  unfold fill_buffer_untyped at h
  repeat' split at h
  all_goals first
    | (injection h with h1 h2; exact h2.symm)
    | exact Outcome.noConfusion h

/-- Every error return of `update_buffer_untyped` carries the builder in its
pre-call state. -/
theorem update_error_state (b : UnsafeCommandBufferBuilder) (s : BufferSlice) (n : Nat)
    (e : BufferUpdateError) (b' : UnsafeCommandBufferBuilder)
    (h : update_buffer_untyped b s n = Outcome.error e b') : b' = b := by
  unfold update_buffer_untyped at h
  repeat' split at h
  all_goals first
    | (injection h with h1 h2; exact h2.symm)
    | exact Outcome.noConfusion h

/-- Whatever list the region-building loop returns is exactly the surviving
regions translated in order. -/
theorem buildRegions_ok_eq (src dest : Buffer) (regions : List BufferCopyRegion)
    (l : List VkBufferCopy) (h : buildRegions src dest regions = Except.ok l) :
    l = (surviving regions).map toVkRegion := by
  induction regions generalizing l with
  | nil =>
    injection h with h1
    rw [← h1]
    rfl
  | cons r rest ih =>
    unfold buildRegions at h
    split at h
    · exact Except.noConfusion h
    · split at h
      · exact Except.noConfusion h
      · split at h
        · rw [ih l h]
          unfold surviving
          rw [List.filter_cons, if_neg (by simp_all)]
        · split at h
          · exact Except.noConfusion h
          · next tail heq =>
            injection h with h1
            rw [← h1, ih tail heq]
            unfold surviving
            rw [List.filter_cons, if_pos (by simp_all)]
            rfl

/-- A non-zero-size member of the region list survives elision. -/
theorem mem_surviving (regions : List BufferCopyRegion) (r : BufferCopyRegion)
    (hr : r ∈ regions) (hnz : r.size ≠ 0) : r ∈ surviving regions :=
  List.mem_filter.mpr ⟨hr, by simp [hnz]⟩

/-- A successful copy either had no surviving region and returned the
builder unchanged, or appended both buffers to the keep-alive list and
exactly one native copy command holding the surviving regions. -/
theorem copy_ok_cases (b : UnsafeCommandBufferBuilder) (src dest : Buffer)
    (regions : List BufferCopyRegion) (b' : UnsafeCommandBufferBuilder)
    (h : copy_buffer_untyped b src dest regions = Outcome.ok b') :
    (surviving regions = [] ∧ b' = b) ∨
    (∃ c, b.cmd = some c ∧
      b' = { b with
        keep_alive := b.keep_alive ++ [src, dest],
        commands := b.commands ++
          [NativeCommand.copyBuffer c src.inner_buffer.internal_object
            dest.inner_buffer.internal_object ((surviving regions).map toVkRegion)] }) := by
  unfold copy_buffer_untyped at h
  split at h
  · exact Outcome.noConfusion h
  split at h
  · exact Outcome.noConfusion h
  split at h
  · exact Outcome.noConfusion h
  split at h
  · exact Outcome.noConfusion h
  · split at h
    · exact Outcome.noConfusion h
    · next vkRegions heq =>
      rw [buildRegions_ok_eq src dest regions vkRegions heq] at h
      split at h
      · next hE =>
        left
        refine ⟨?_, (Outcome.ok.inj h).symm⟩
        cases hs : surviving regions with
        | nil => rfl
        | cons x xs =>
          rw [hs] at hE
          exact absurd hE (by simp)
      · split at h
        · exact Outcome.noConfusion h
        · split at h
          · exact Outcome.noConfusion h
          · next c hcmd =>
            right
            exact ⟨c, hcmd, (Outcome.ok.inj h).symm⟩

/-- A successful fill either was a zero-size no-op or appended the target
buffer to the keep-alive list and exactly one native fill command. -/
theorem fill_ok_cases (b : UnsafeCommandBufferBuilder) (s : BufferSlice) (d : Nat)
    (b' : UnsafeCommandBufferBuilder) (h : fill_buffer_untyped b s d = Outcome.ok b') :
    b' = b ∨
    (∃ c, b.cmd = some c ∧
      b' = { b with
        keep_alive := b.keep_alive ++ [s.buffer],
        commands := b.commands ++
          [NativeCommand.fillBuffer c s.buffer.inner_buffer.internal_object
            s.offset s.size d] }) := by
  unfold fill_buffer_untyped at h
  repeat' split at h
  all_goals first
    | exact Outcome.noConfusion h
    | exact Or.inl (Outcome.ok.inj h).symm
    | (rename_i c hcmd; exact Or.inr ⟨c, hcmd, (Outcome.ok.inj h).symm⟩)

/-- A successful update either was a zero-size no-op or appended the target
buffer to the keep-alive list and exactly one native update command. -/
theorem update_ok_cases (b : UnsafeCommandBufferBuilder) (s : BufferSlice) (n : Nat)
    (b' : UnsafeCommandBufferBuilder) (h : update_buffer_untyped b s n = Outcome.ok b') :
    b' = b ∨
    (∃ c, b.cmd = some c ∧
      b' = { b with
        keep_alive := b.keep_alive ++ [s.buffer],
        commands := b.commands ++
          [NativeCommand.updateBuffer c s.buffer.inner_buffer.internal_object
            s.offset (s.size / 4)] }) := by
  unfold update_buffer_untyped at h
  repeat' split at h
  all_goals first
    | exact Outcome.noConfusion h
    | exact Or.inl (Outcome.ok.inj h).symm
    | (rename_i c hcmd; exact Or.inr ⟨c, hcmd, (Outcome.ok.inj h).symm⟩)

/-- Claim C2: every copy, fill, or update call that returns an error leaves
the builder completely unchanged — the keep-alive set, the
within-render-pass flag, the bound-pipeline fields, the dynamic-state
snapshot and the native command sequence are those of the builder before the
call. -/
theorem claim_C2_error_leaves_builder_unchanged :
    (∀ b src dest regions e b',
        copy_buffer_untyped b src dest regions = Outcome.error e b' → b' = b) ∧
    (∀ b s d e b', fill_buffer_untyped b s d = Outcome.error e b' → b' = b) ∧
    (∀ b s n e b', update_buffer_untyped b s n = Outcome.error e b' → b' = b) :=
  ⟨copy_error_state, fill_error_state, update_error_state⟩

/-- Witness for C2: a concrete copy attempted inside a render pass fails
with `ForbiddenWithinRenderPass`, and the theorem yields that the builder it
reports is the original one. -/
theorem claim_C2_witness :
    copy_buffer_untyped builderRP bufA bufB [] =
      Outcome.error BufferCopyError.ForbiddenWithinRenderPass builderRP ∧
    builderRP = builderRP :=
  ⟨by decide,
   claim_C2_error_leaves_builder_unchanged.1 builderRP bufA bufB []
     BufferCopyError.ForbiddenWithinRenderPass builderRP (by decide)⟩

/-- Claim C8: outside a render pass, a device-identity mismatch on any
resource argument of copy, fill or update makes the call panic (a failed
assertion), never a recoverable error value. -/
theorem claim_C8_device_mismatch_panics :
    (∀ b src dest regions, b.within_render_pass = false →
       (src.inner_buffer.device_internal ≠ b.pool.device_internal ∨
        dest.inner_buffer.device_internal ≠ b.pool.device_internal) →
       copy_buffer_untyped b src dest regions = Outcome.panicked) ∧
    (∀ b s d, b.within_render_pass = false →
       s.buffer.inner_buffer.device_internal ≠ b.pool.device_internal →
       fill_buffer_untyped b s d = Outcome.panicked) ∧
    (∀ b s n, b.within_render_pass = false →
       s.buffer.inner_buffer.device_internal ≠ b.pool.device_internal →
       update_buffer_untyped b s n = Outcome.panicked) := by
  refine ⟨?_, ?_, ?_⟩
  · intro b src dest regions hwrp hdev
    unfold copy_buffer_untyped
    rw [if_neg (by simp [hwrp])]
    by_cases h1 : src.inner_buffer.device_internal ≠ b.pool.device_internal
    · rw [if_pos h1]
    · rw [if_neg h1, if_pos (hdev.resolve_left h1)]
  · intro b s d hwrp hdev
    unfold fill_buffer_untyped
    rw [if_neg (by simp [hwrp]), if_pos hdev]
  · intro b s n hwrp hdev
    unfold update_buffer_untyped
    rw [if_neg (by simp [hwrp]), if_pos hdev]

/-- Witness for C8: copying from a buffer allocated on device 99 with a
builder whose pool lives on device 7 panics. -/
theorem claim_C8_witness :
    builder0.within_render_pass = false ∧
    bufOtherDevice.inner_buffer.device_internal ≠ builder0.pool.device_internal ∧
    copy_buffer_untyped builder0 bufOtherDevice bufB [] = Outcome.panicked :=
  ⟨by decide, by decide,
   claim_C8_device_mismatch_panics.1 builder0 bufOtherDevice bufB [] (by decide)
     (Or.inl (by decide))⟩

/-- Claim C3 (counterexample): on a queue family with neither graphics nor
compute, a fill with a misaligned offset is rejected with `WrongAlignment`
(not `NotSupportedByQueueFamily`), and a zero-size fill even succeeds — the
queue-family check does not run before the region checks. -/
theorem claim_C3_counterexample :
    builderNoQF.pool.queue_family.supports_graphics = false ∧
    builderNoQF.pool.queue_family.supports_compute = false ∧
    fill_buffer_untyped builderNoQF { buffer := bufA, offset := 2, size := 8 } 0 =
      Outcome.error BufferFillError.WrongAlignment builderNoQF ∧
    fill_buffer_untyped builderNoQF { buffer := bufA, offset := 0, size := 0 } 0 =
      Outcome.ok builderNoQF := by decide

/-- Claim C3 (amended): a fill on a queue family with neither graphics nor
compute support is rejected with `NotSupportedByQueueFamily` provided the
region moreover passes the alignment check and has non-zero size — the
alignment and zero-size checks run before the queue-family check. -/
theorem claim_C3_not_supported_by_queue_family
    (b : UnsafeCommandBufferBuilder) (s : BufferSlice) (d : Nat)
    (hwrp : b.within_render_pass = false)
    (hdev : s.buffer.inner_buffer.device_internal = b.pool.device_internal)
    (husage : s.buffer.inner_buffer.usage_transfer_src = true)
    (hqf1 : b.pool.queue_family.supports_graphics = false)
    (hqf2 : b.pool.queue_family.supports_compute = false)
    (halign1 : s.offset % 4 = 0) (halign2 : s.size % 4 = 0)
    (hnz : s.size ≠ 0) :
    fill_buffer_untyped b s d = Outcome.error BufferFillError.NotSupportedByQueueFamily b := by
  unfold fill_buffer_untyped
  rw [if_neg (by simp [hwrp]), if_neg (by simp [hdev]), if_neg (by simp [husage]),
      if_neg (by omega), if_neg hnz, if_pos (by simp [hqf1, hqf2])]

/-- Witness for the amended C3: a 4-aligned, 8-byte fill on the
transfer-only queue family is rejected with `NotSupportedByQueueFamily`. -/
theorem claim_C3_witness :
    fill_buffer_untyped builderNoQF { buffer := bufA, offset := 0, size := 8 } 0 =
      Outcome.error BufferFillError.NotSupportedByQueueFamily builderNoQF :=
  claim_C3_not_supported_by_queue_family builderNoQF { buffer := bufA, offset := 0, size := 8 } 0
    (by decide) (by decide) (by decide) (by decide) (by decide) (by decide) (by decide)
    (by decide)

/-- Claim C4 (counterexample): an update region of exactly 65536 bytes is
rejected with `RegionTooLarge` — the source tests `size >= 0x10000`, not a
strict inequality. -/
theorem claim_C4_counterexample :
    slice64k.size = 65536 ∧
    update_buffer_untyped builder0 slice64k 65536 =
      Outcome.error BufferUpdateError.RegionTooLarge builder0 := by decide

/-- Claim C4 (amended): past the earlier checks, an update is rejected with
`RegionTooLarge` exactly when the region size is at least 65536 bytes; in
particular a region of exactly 65536 bytes is rejected. -/
theorem claim_C4_region_too_large_iff
    (b : UnsafeCommandBufferBuilder) (s : BufferSlice) (n : Nat)
    (hwrp : b.within_render_pass = false)
    (hdev : s.buffer.inner_buffer.device_internal = b.pool.device_internal)
    (husage : s.buffer.inner_buffer.usage_transfer_src = true)
    (halign1 : s.offset % 4 = 0) (halign2 : s.size % 4 = 0)
    (hnz : s.size ≠ 0) :
    update_buffer_untyped b s n = Outcome.error BufferUpdateError.RegionTooLarge b ↔
      65536 ≤ s.size := by
  unfold update_buffer_untyped
  rw [if_neg (by simp [hwrp]), if_neg (by simp [hdev]), if_neg (by simp [husage]),
      if_neg (by omega), if_neg hnz]
  constructor
  · intro h
    by_cases hbig : 0x10000 ≤ s.size
    · exact hbig
    · rw [if_neg hbig] at h
      repeat' split at h
      all_goals first
        | (injection h with h1 h2; exact BufferUpdateError.noConfusion h1)
        | exact Outcome.noConfusion h
  · intro h
    rw [if_pos h]

/-- Witness for the amended C4: with a 65536-byte region the iff yields the
`RegionTooLarge` rejection. -/
theorem claim_C4_witness :
    update_buffer_untyped builder0 slice64k 65536 =
      Outcome.error BufferUpdateError.RegionTooLarge builder0 :=
  (claim_C4_region_too_large_iff builder0 slice64k 65536 (by decide) (by decide)
    (by decide) (by decide) (by decide) (by decide)).mpr (by decide)

/-- Claim C6: a copy whose region list is empty or whose regions all have
size 0 (each in bounds), and which passes the guard checks, succeeds and
returns the builder unchanged — no native command appended, keep-alive set
untouched. -/
theorem claim_C6_all_zero_regions_noop
    (b : UnsafeCommandBufferBuilder) (src dest : Buffer) (regions : List BufferCopyRegion)
    (hwrp : b.within_render_pass = false)
    (hdev1 : src.inner_buffer.device_internal = b.pool.device_internal)
    (hdev2 : dest.inner_buffer.device_internal = b.pool.device_internal)
    (husage1 : src.inner_buffer.usage_transfer_src = true)
    (husage2 : dest.inner_buffer.usage_transfer_dest = true)
    (hin : ∀ r ∈ regions, wrapAdd r.source_offset r.size ≤ src.size ∧
             wrapAdd r.destination_offset r.size ≤ dest.size)
    (hz : ∀ r ∈ regions, r.size = 0) :
    copy_buffer_untyped b src dest regions = Outcome.ok b := by
  unfold copy_buffer_untyped
  rw [if_neg (by simp [hwrp]), if_neg (by simp [hdev1]), if_neg (by simp [hdev2]),
      if_neg (by simp [husage1, husage2]),
      buildRegions_eq_ok src dest regions hin, surviving_eq_nil regions hz]
  rfl

/-- Witness for C6: the empty region list between two concrete buffers is a
legal no-op leaving the builder untouched. -/
theorem claim_C6_witness :
    copy_buffer_untyped builder0 bufA bufB [] = Outcome.ok builder0 :=
  claim_C6_all_zero_regions_noop builder0 bufA bufB [] (by decide) (by decide)
    (by decide) (by decide) (by decide) (by simp) (by simp)

/-- Claim C9: a copy with exactly one surviving region between two handles
on the same underlying buffer object succeeds even when that region's own
source interval overlaps its own destination interval: the overlap loop
ranges only over distinct index pairs. -/
theorem claim_C9_single_region_self_overlap_succeeds
    (b : UnsafeCommandBufferBuilder) (src dest : Buffer) (r : BufferCopyRegion) (c : Nat)
    (hwrp : b.within_render_pass = false)
    (hdev1 : src.inner_buffer.device_internal = b.pool.device_internal)
    (hdev2 : dest.inner_buffer.device_internal = b.pool.device_internal)
    (husage1 : src.inner_buffer.usage_transfer_src = true)
    (husage2 : dest.inner_buffer.usage_transfer_dest = true)
    (hobj : src.inner_buffer.internal_object = dest.inner_buffer.internal_object)
    (hcmd : b.cmd = some c)
    (hin1 : wrapAdd r.source_offset r.size ≤ src.size)
    (hin2 : wrapAdd r.destination_offset r.size ≤ dest.size)
    (hnz : r.size ≠ 0)
    (hoverlap : r.source_offset ≤ r.destination_offset + r.size ∧
                r.destination_offset ≤ r.source_offset + r.size) :
    copy_buffer_untyped b src dest [r] =
      Outcome.ok { b with
        keep_alive := b.keep_alive ++ [src, dest],
        commands := b.commands ++
          [NativeCommand.copyBuffer c src.inner_buffer.internal_object
            dest.inner_buffer.internal_object [toVkRegion r]] } := by
  unfold copy_buffer_untyped
  rw [if_neg (by simp [hwrp]), if_neg (by simp [hdev1]), if_neg (by simp [hdev2]),
      if_neg (by simp [husage1, husage2])]
  have hseq : buildRegions src dest [r] = Except.ok [toVkRegion r] := by
    unfold buildRegions
    rw [if_neg (by omega), if_neg (by omega), if_neg hnz]
    rfl
  rw [hseq, hcmd]
  rfl

/-- Witness for C9: region `{src 0, dst 8, size 16}` on a single buffer has
overlapping own source `[0,16)` and destination `[8,24)` intervals, yet the
copy succeeds and appends the command. -/
theorem claim_C9_witness :
    copy_buffer_untyped builder0 bufA bufA [{ source_offset := 0, destination_offset := 8, size := 16 }] =
      Outcome.ok { builder0 with
        keep_alive := [bufA, bufA],
        commands := [NativeCommand.copyBuffer 1 100 100
          [{ srcOffset := 0, dstOffset := 8, size := 16 }]] } :=
  claim_C9_single_region_self_overlap_succeeds builder0 bufA bufA
    { source_offset := 0, destination_offset := 8, size := 16 } 1
    (by decide) (by decide) (by decide) (by decide) (by decide) (by decide) rfl
    (by decide) (by decide) (by decide) (by decide)

/-- Claim C7: append operations only ever extend the keep-alive set — on
success as well as on error no reference is removed — and a successful copy
with at least one surviving region appends exactly the source and
destination references at the end of the set and exactly one native copy
command. -/
theorem claim_C7_keep_alive_only_grows :
    (∀ b src dest regions b', copy_buffer_untyped b src dest regions = Outcome.ok b' →
       ∃ t, b'.keep_alive = b.keep_alive ++ t) ∧
    (∀ b src dest regions e b', copy_buffer_untyped b src dest regions = Outcome.error e b' →
       b'.keep_alive = b.keep_alive) ∧
    (∀ b s d b', fill_buffer_untyped b s d = Outcome.ok b' →
       ∃ t, b'.keep_alive = b.keep_alive ++ t) ∧
    (∀ b s d e b', fill_buffer_untyped b s d = Outcome.error e b' →
       b'.keep_alive = b.keep_alive) ∧
    (∀ b s n b', update_buffer_untyped b s n = Outcome.ok b' →
       ∃ t, b'.keep_alive = b.keep_alive ++ t) ∧
    (∀ b s n e b', update_buffer_untyped b s n = Outcome.error e b' →
       b'.keep_alive = b.keep_alive) ∧
    (∀ b src dest regions b' r, copy_buffer_untyped b src dest regions = Outcome.ok b' →
       r ∈ regions → r.size ≠ 0 →
       b'.keep_alive = b.keep_alive ++ [src, dest] ∧
       ∃ c, b.cmd = some c ∧
         b'.commands = b.commands ++
           [NativeCommand.copyBuffer c src.inner_buffer.internal_object
             dest.inner_buffer.internal_object ((surviving regions).map toVkRegion)]) := by
  refine ⟨?_, ?_, ?_, ?_, ?_, ?_, ?_⟩
  · intro b src dest regions b' h
    rcases copy_ok_cases b src dest regions b' h with ⟨hs, hb⟩ | ⟨c, hcmd, hb⟩
    · exact ⟨[], by rw [hb]; simp⟩
    · exact ⟨[src, dest], by rw [hb]⟩
  · intro b src dest regions e b' h
    rw [copy_error_state b src dest regions e b' h]
  · intro b s d b' h
    rcases fill_ok_cases b s d b' h with hb | ⟨c, hcmd, hb⟩
    · exact ⟨[], by rw [hb]; simp⟩
    · exact ⟨[s.buffer], by rw [hb]⟩
  · intro b s d e b' h
    rw [fill_error_state b s d e b' h]
  · intro b s n b' h
    rcases update_ok_cases b s n b' h with hb | ⟨c, hcmd, hb⟩
    · exact ⟨[], by rw [hb]; simp⟩
    · exact ⟨[s.buffer], by rw [hb]⟩
  · intro b s n e b' h
    rw [update_error_state b s n e b' h]
  · intro b src dest regions b' r h hr hnz
    rcases copy_ok_cases b src dest regions b' h with ⟨hs, hb⟩ | ⟨c, hcmd, hb⟩
    · exact absurd (mem_surviving regions r hr hnz) (by rw [hs]; exact List.not_mem_nil r)
    · exact ⟨by rw [hb], c, hcmd, by rw [hb]⟩

/-- Witness for C7 (scenario A): the concrete 16-byte copy from `bufA` to
`bufB` succeeds and the theorem yields that exactly both buffers were
appended to the keep-alive set. -/
theorem claim_C7_witness :
    copy_buffer_untyped builder0 bufA bufB [regA] = Outcome.ok scenarioA ∧
    scenarioA.keep_alive = builder0.keep_alive ++ [bufA, bufB] :=
  ⟨by decide,
   (claim_C7_keep_alive_only_grows.2.2.2.2.2.2 builder0 bufA bufB [regA] scenarioA regA
     (by decide) (by decide) (by decide)).1⟩

/-- The only error the region-building loop produces is `OutOfRange`. -/
theorem buildRegions_error_out_of_range (src dest : Buffer) (regions : List BufferCopyRegion)
    (e : BufferCopyError) (h : buildRegions src dest regions = Except.error e) :
    e = BufferCopyError.OutOfRange := by
  induction regions generalizing e with
  | nil => exact Except.noConfusion h
  | cons r rest ih =>
    unfold buildRegions at h
    split at h
    · injection h with h1
      exact h1.symm
    split at h
    · injection h with h1
      exact h1.symm
    split at h
    · exact ih e h
    · split at h
      · next e' heq =>
        injection h with h1
        rw [← h1]
        exact ih e' heq
      · exact Except.noConfusion h

/-- The region-building loop fails (necessarily with `OutOfRange`) exactly
when some region's wrapped end offset exceeds the corresponding buffer
size. -/
theorem buildRegions_error_iff (src dest : Buffer) (regions : List BufferCopyRegion) :
    buildRegions src dest regions = Except.error BufferCopyError.OutOfRange ↔
      ∃ r ∈ regions, src.size < wrapAdd r.source_offset r.size ∨
        dest.size < wrapAdd r.destination_offset r.size := by
  induction regions with
  | nil => simp [buildRegions]
  | cons r rest ih =>
    unfold buildRegions
    by_cases h1 : src.size < wrapAdd r.source_offset r.size
    · rw [if_pos h1]
      constructor
      · intro _
        exact ⟨r, List.mem_cons_self r rest, Or.inl h1⟩
      · intro _
        rfl
    · rw [if_neg h1]
      by_cases h2 : dest.size < wrapAdd r.destination_offset r.size
      · rw [if_pos h2]
        constructor
        · intro _
          exact ⟨r, List.mem_cons_self r rest, Or.inr h2⟩
        · intro _
          rfl
      · rw [if_neg h2]
        by_cases hz : r.size = 0
        · rw [if_pos hz, ih]
          constructor
          · rintro ⟨x, hx, hc⟩
            exact ⟨x, List.mem_cons_of_mem r hx, hc⟩
          · rintro ⟨x, hx, hc⟩
            rcases List.mem_cons.mp hx with heq | hx'
            · subst heq
              rcases hc with hc | hc
              · exact absurd hc h1
              · exact absurd hc h2
            · exact ⟨x, hx', hc⟩
        · rw [if_neg hz]
          constructor
          · intro h
            cases hb : buildRegions src dest rest with
            | error e =>
              have he := buildRegions_error_out_of_range src dest rest e hb
              obtain ⟨x, hx, hc⟩ := ih.mp (by rw [hb, he])
              exact ⟨x, List.mem_cons_of_mem r hx, hc⟩
            | ok tail =>
              rw [hb] at h
              exact Except.noConfusion h
          · rintro ⟨x, hx, hc⟩
            rcases List.mem_cons.mp hx with heq | hx'
            · subst heq
              rcases hc with hc | hc
              · exact absurd hc h1
              · exact absurd hc h2
            · rw [ih.mpr ⟨x, hx', hc⟩]

/-- Claim C5 (counterexample): a region whose source offset and size sum
past the 64-bit maximum is accepted, not rejected — the unchecked addition
wraps to 1, which passes the bounds comparison. -/
theorem claim_C5_counterexample :
    bufA.size < regionWrap.source_offset + regionWrap.size ∧
    copy_buffer_untyped builder0 bufA bufB [regionWrap] = Outcome.ok builderWrapResult := by
  decide

/-- Claim C5 (amended): past the guard checks, a copy is rejected with
`OutOfRange` exactly when some region's wrapped (modulo `2^64`) sum of
offset and size exceeds the corresponding buffer size; an overflowing sum
can therefore wrap around and be accepted. -/
theorem claim_C5_out_of_range_iff
    (b : UnsafeCommandBufferBuilder) (src dest : Buffer) (regions : List BufferCopyRegion)
    (hwrp : b.within_render_pass = false)
    (hdev1 : src.inner_buffer.device_internal = b.pool.device_internal)
    (hdev2 : dest.inner_buffer.device_internal = b.pool.device_internal)
    (husage1 : src.inner_buffer.usage_transfer_src = true)
    (husage2 : dest.inner_buffer.usage_transfer_dest = true) :
    copy_buffer_untyped b src dest regions = Outcome.error BufferCopyError.OutOfRange b ↔
      ∃ r ∈ regions, src.size < wrapAdd r.source_offset r.size ∨
        dest.size < wrapAdd r.destination_offset r.size := by
  unfold copy_buffer_untyped
  rw [if_neg (by simp [hwrp]), if_neg (by simp [hdev1]), if_neg (by simp [hdev2]),
      if_neg (by simp [husage1, husage2])]
  constructor
  · intro h
    cases hb : buildRegions src dest regions with
    | error e =>
      have he := buildRegions_error_out_of_range src dest regions e hb
      exact (buildRegions_error_iff src dest regions).mp (by rw [hb, he])
    | ok vkRegions =>
      rw [hb] at h
      exfalso
      repeat' split at h
      all_goals first
        | (injection h with h1 h2; exact BufferCopyError.noConfusion h1)
        | exact Outcome.noConfusion h
        | (rename_i heq2; exact Except.noConfusion heq2)
  · intro hex
    rw [(buildRegions_error_iff src dest regions).mpr hex]

/-- Witness for the amended C5: a region ending at byte 304 of a 200-byte
buffer is rejected with `OutOfRange`. -/
theorem claim_C5_witness :
    copy_buffer_untyped builder0 bufA bufB
        [{ source_offset := 300, destination_offset := 0, size := 4 }] =
      Outcome.error BufferCopyError.OutOfRange builder0 :=
  (claim_C5_out_of_range_iff builder0 bufA bufB
      [{ source_offset := 300, destination_offset := 0, size := 4 }]
      (by decide) (by decide) (by decide) (by decide) (by decide)).mpr
    ⟨{ source_offset := 300, destination_offset := 0, size := 4 }, by decide,
     Or.inl (by decide)⟩

/-- Claim C10: fill and update return `WrongUsageFlag` exactly when the
target buffer lacks the transfer-source usage flag (given the render-pass
and device checks pass), and the outcome classification of either operation
never depends on the transfer-destination usage flag. -/
theorem claim_C10_wrong_usage_flag :
    (∀ b s d, b.within_render_pass = false →
       s.buffer.inner_buffer.device_internal = b.pool.device_internal →
       (fill_buffer_untyped b s d = Outcome.error BufferFillError.WrongUsageFlag b ↔
         s.buffer.inner_buffer.usage_transfer_src = false)) ∧
    (∀ b s n, b.within_render_pass = false →
       s.buffer.inner_buffer.device_internal = b.pool.device_internal →
       (update_buffer_untyped b s n = Outcome.error BufferUpdateError.WrongUsageFlag b ↔
         s.buffer.inner_buffer.usage_transfer_src = false)) ∧
    (∀ b s d v, outcomeTag (fill_buffer_untyped b (setTransferDest s v) d) =
       outcomeTag (fill_buffer_untyped b s d)) ∧
    (∀ b s n v, outcomeTag (update_buffer_untyped b (setTransferDest s v) n) =
       outcomeTag (update_buffer_untyped b s n)) := by
  refine ⟨?_, ?_, ?_, ?_⟩
  · intro b s d hwrp hdev
    unfold fill_buffer_untyped
    rw [if_neg (by simp [hwrp]), if_neg (by simp [hdev])]
    constructor
    · intro h
      by_cases hu : s.buffer.inner_buffer.usage_transfer_src = false
      · exact hu
      · exfalso
        rw [if_neg (by simp_all)] at h
        repeat' split at h
        all_goals first
          | (injection h with h1 h2; exact BufferFillError.noConfusion h1)
          | exact Outcome.noConfusion h
    · intro h
      rw [if_pos (by simp [h])]
  · intro b s n hwrp hdev
    unfold update_buffer_untyped
    rw [if_neg (by simp [hwrp]), if_neg (by simp [hdev])]
    constructor
    · intro h
      by_cases hu : s.buffer.inner_buffer.usage_transfer_src = false
      · exact hu
      · exfalso
        rw [if_neg (by simp_all)] at h
        repeat' split at h
        all_goals first
          | (injection h with h1 h2; exact BufferUpdateError.noConfusion h1)
          | exact Outcome.noConfusion h
    · intro h
      rw [if_pos (by simp [h])]
  · intro b s d v
    cases s with
    | mk sb off sz =>
      cases sb with
      | mk inner size =>
        cases inner with
        | mk dev obj usrc udst =>
          unfold setTransferDest fill_buffer_untyped
          dsimp only
          split_ifs <;> try rfl
          all_goals (cases hc : b.cmd <;> rfl)
  · intro b s n v
    cases s with
    | mk sb off sz =>
      cases sb with
      | mk inner size =>
        cases inner with
        | mk dev obj usrc udst =>
          unfold setTransferDest update_buffer_untyped
          dsimp only
          split_ifs <;> try rfl
          all_goals (cases hc : b.cmd <;> rfl)

/-- Witness for C10: a fill on a buffer lacking the transfer-source usage
flag is rejected with `WrongUsageFlag`. -/
theorem claim_C10_witness :
    fill_buffer_untyped builder0 sliceNoSrc 0 =
      Outcome.error BufferFillError.WrongUsageFlag builder0 :=
  (claim_C10_wrong_usage_flag.1 builder0 sliceNoSrc 0 (by decide) (by decide)).mpr (by decide)

/-- If an ordered pair of the list (first element before the second) makes
`overlapHit` fire, the overlap-checking double loop fires. -/
theorem anyPairOverlap_of_sublist (s : Bool) (r1 r2 : VkBufferCopy) :
    ∀ l : List VkBufferCopy, List.Sublist [r1, r2] l → overlapHit s r1 r2 = true →
      anyPairOverlap s l = true := by
  intro l
  induction l with
  | nil =>
    intro h _
    exact absurd h (by simp)
  | cons a rest ih =>
    intro h hhit
    cases h with
    | cons _ h' =>
      unfold anyPairOverlap
      rw [ih h' hhit, Bool.or_true]
    | cons₂ _ h' =>
      unfold anyPairOverlap
      rw [List.any_eq_true.mpr ⟨r2, List.singleton_sublist.mp h', hhit⟩, Bool.true_or]

/-- Claim C1 (counterexample): two in-bounds regions on the same underlying
buffer whose first source interval `[8, 12)` strictly overlaps the second
destination interval `[5, 9)` are accepted, not rejected: the cross
source/destination check only tests whether a destination offset lies
inside a closed source span, so a destination interval reaching into a
source interval from below goes undetected. -/
theorem claim_C1_counterexample :
    cexRegion2.destination_offset < cexRegion1.source_offset + cexRegion1.size ∧
    cexRegion1.source_offset < cexRegion2.destination_offset + cexRegion2.size ∧
    copy_buffer_untyped builder0 bufA bufA [cexRegion1, cexRegion2] =
      Outcome.ok builderCexC1 := by
  decide

/-- Claim C1 (amended): for in-bounds regions, a copy is rejected with
`OverlappingRegions` whenever two distinct surviving regions (in list
order) have source intervals that overlap or touch at an endpoint,
destination intervals that overlap or touch, or — when source and
destination are the same underlying object — the destination offset of one
region lies within the closed source span `[srcOffset, srcOffset + size]`
of the other, in either direction.  (The source does not detect a
destination interval that starts strictly below a source interval and
extends into it.) -/
theorem claim_C1_overlap_reject
    (b : UnsafeCommandBufferBuilder) (src dest : Buffer)
    (regions : List BufferCopyRegion) (r1 r2 : BufferCopyRegion)
    (hwrp : b.within_render_pass = false)
    (hdev1 : src.inner_buffer.device_internal = b.pool.device_internal)
    (hdev2 : dest.inner_buffer.device_internal = b.pool.device_internal)
    (husage1 : src.inner_buffer.usage_transfer_src = true)
    (husage2 : dest.inner_buffer.usage_transfer_dest = true)
    (hsz1 : src.size < USIZE) (hsz2 : dest.size < USIZE)
    (hin : ∀ r ∈ regions, r.source_offset + r.size ≤ src.size ∧
             r.destination_offset + r.size ≤ dest.size)
    (hpair : List.Sublist [r1, r2] (surviving regions))
    (hcond :
      (r1.source_offset ≤ r2.source_offset + r2.size ∧
       r2.source_offset ≤ r1.source_offset + r1.size) ∨
      (r1.destination_offset ≤ r2.destination_offset + r2.size ∧
       r2.destination_offset ≤ r1.destination_offset + r1.size) ∨
      (src.inner_buffer.internal_object = dest.inner_buffer.internal_object ∧
        ((r1.source_offset ≤ r2.destination_offset ∧
          r2.destination_offset ≤ r1.source_offset + r1.size) ∨
         (r2.source_offset ≤ r1.destination_offset ∧
          r1.destination_offset ≤ r2.source_offset + r2.size)))) :
    copy_buffer_untyped b src dest regions =
      Outcome.error BufferCopyError.OverlappingRegions b := by
  have hinw : ∀ r ∈ regions, wrapAdd r.source_offset r.size ≤ src.size ∧
      wrapAdd r.destination_offset r.size ≤ dest.size := by
    intro r hr
    have h := hin r hr
    constructor
    · rw [wrapAdd, Nat.mod_eq_of_lt (lt_of_le_of_lt h.1 hsz1)]
      exact h.1
    · rw [wrapAdd, Nat.mod_eq_of_lt (lt_of_le_of_lt h.2 hsz2)]
      exact h.2
  have hm1 : r1 ∈ regions :=
    List.mem_of_mem_filter (hpair.subset (List.mem_cons_self r1 [r2]))
  have hm2 : r2 ∈ regions :=
    List.mem_of_mem_filter (hpair.subset (List.mem_cons_of_mem r1 (List.mem_cons_self r2 [])))
  have w1 : wrapAdd r1.source_offset r1.size = r1.source_offset + r1.size :=
    Nat.mod_eq_of_lt (lt_of_le_of_lt (hin r1 hm1).1 hsz1)
  have w1d : wrapAdd r1.destination_offset r1.size = r1.destination_offset + r1.size :=
    Nat.mod_eq_of_lt (lt_of_le_of_lt (hin r1 hm1).2 hsz2)
  have w2 : wrapAdd r2.source_offset r2.size = r2.source_offset + r2.size :=
    Nat.mod_eq_of_lt (lt_of_le_of_lt (hin r2 hm2).1 hsz1)
  have w2d : wrapAdd r2.destination_offset r2.size = r2.destination_offset + r2.size :=
    Nat.mod_eq_of_lt (lt_of_le_of_lt (hin r2 hm2).2 hsz2)
  have hhit : overlapHit (src.inner_buffer.internal_object == dest.inner_buffer.internal_object)
      (toVkRegion r1) (toVkRegion r2) = true := by
    simp only [overlapHit, toVkRegion, Bool.or_eq_true, Bool.and_eq_true, decide_eq_true_eq,
      w1, w1d, w2, w2d]
    rcases hcond with hsrc | hdst | ⟨hobj, hcross⟩
    · rcases Nat.le_total r1.source_offset r2.source_offset with hle | hle
      · exact Or.inl (Or.inl (Or.inl (Or.inl ⟨hle, by omega⟩)))
      · exact Or.inl (Or.inl (Or.inl (Or.inr ⟨hle, by omega⟩)))
    · rcases Nat.le_total r1.destination_offset r2.destination_offset with hle | hle
      · exact Or.inl (Or.inl (Or.inr ⟨hle, by omega⟩))
      · exact Or.inl (Or.inr ⟨hle, by omega⟩)
    · refine Or.inr ⟨by simp [hobj], ?_⟩
      rcases hcross with hcr | hcr
      · exact Or.inl hcr
      · exact Or.inr hcr
  unfold copy_buffer_untyped
  rw [if_neg (by simp [hwrp]), if_neg (by simp [hdev1]), if_neg (by simp [hdev2]),
      if_neg (by simp [husage1, husage2]), buildRegions_eq_ok src dest regions hinw]
  dsimp only
  have hne : ((surviving regions).map toVkRegion).isEmpty = false := by
    cases hsv : surviving regions with
    | nil =>
      exact absurd (hpair.subset (List.mem_cons_self r1 [r2]))
        (by rw [hsv]; exact List.not_mem_nil r1)
    | cons x xs => rfl
  have hany : anyPairOverlap
      (src.inner_buffer.internal_object == dest.inner_buffer.internal_object)
      ((surviving regions).map toVkRegion) = true :=
    anyPairOverlap_of_sublist _ (toVkRegion r1) (toVkRegion r2) _
      (hpair.map toVkRegion) hhit
  rw [if_neg (by simp [hne]), if_pos hany]

/-- Witness for the amended C1 (scenario B): regions with source intervals
`[0, 16)` and `[8, 24)` on the same buffer are rejected with
`OverlappingRegions`. -/
theorem claim_C1_witness :
    copy_buffer_untyped builder0 bufA bufA
        [{ source_offset := 0, destination_offset := 0, size := 16 },
         { source_offset := 8, destination_offset := 100, size := 16 }] =
      Outcome.error BufferCopyError.OverlappingRegions builder0 :=
  claim_C1_overlap_reject builder0 bufA bufA
    [{ source_offset := 0, destination_offset := 0, size := 16 },
     { source_offset := 8, destination_offset := 100, size := 16 }]
    { source_offset := 0, destination_offset := 0, size := 16 }
    { source_offset := 8, destination_offset := 100, size := 16 }
    (by decide) (by decide) (by decide) (by decide) (by decide) (by decide) (by decide)
    (by decide) (by decide) (Or.inl (by decide))

end Vulkano
